import Mathlib

/-!
# Verification of the Sentinela-Falta-Corte report scripts

Shallow embedding, in Lean 4, of the decision logic of the repository:

* `main.py` — weekly-agenda scheduler (`obter_proximo_horario_agendado`,
  `verificar_mudancas_diarias`), the report cycle (`verificar_corte_falta`),
  the SQL layer wrapper (`executar_consulta_sql`), the mail sender
  (`enviar_email`) and the currency formatter (`formatar_como_moeda`);
* `sentinela_core.py` — SMTP client (`send_html`), sheet-name sanitisation
  (`safe_sheet_name`), currency formatter (`moeda_br`) and the closing-month
  subject/attachment builders (`build_subject_corte`, `build_attachment_name`);
* `config_bd.py` — the `session_scope` transaction context manager.

Timestamps are modelled as minutes (`Nat`) since an epoch placed at a
Monday 00:00, so that `weekday t = t / 1440 % 7` matches Python's
`datetime.weekday()` convention (0 = Monday).  Fallible Python code is
modelled with `Except`; pandas DataFrames are modelled as named columns of
cells, where a cell is a numeric value, a non-numeric value, or a null.
-/

namespace Sentinela

/-! ## Scheduling (`main.py`, `obter_proximo_horario_agendado`)

An agenda entry is `{"dias": [...], "horario": dt_time(h, m)}`; we keep the
weekday list as-is and the time of day as minutes after midnight. -/

structure AgendaEntry where
  dias : List Nat
  horario : Nat
deriving Repr, DecidableEq

/-- Minutes in a day. -/
def minutosDia : Nat := 1440

/-- Minutes in a week (`timedelta(days=7)`). -/
def minutosSemana : Nat := 10080

/-- `datetime.weekday()`: 0 = Monday, …, 6 = Sunday (epoch is a Monday 00:00). -/
def weekday (t : Nat) : Nat := t / minutosDia % 7

/-- Time of day in minutes (the `dt_time` component of a timestamp). -/
def timeOfDay (t : Nat) : Nat := t % minutosDia

/-- The inner-loop body of `obter_proximo_horario_agendado` for one weekday
`dia` of one entry:
`dias_ahead = (dia - agora.weekday()) % 7`,
`datetime_agendado = datetime.combine((agora + timedelta(days=dias_ahead)).date(), horario)`,
then `if datetime_agendado <= agora: datetime_agendado += timedelta(days=7)`.
(`(dia + 7 - weekday agora) % 7` equals Python's `(dia - weekday) % 7`
because `weekday agora < 7 ≤ dia + 7`.) -/
def nextForDay (agora dia horario : Nat) : Nat :=
  let diasAhead := (dia + 7 - weekday agora) % 7
  let dataAgendada := agora / minutosDia + diasAhead
  let datetimeAgendado := dataAgendada * minutosDia + horario
  if datetimeAgendado ≤ agora then datetimeAgendado + minutosSemana
  else datetimeAgendado

/-- The update of `proxima_execucao`:
`if proxima_execucao is None or datetime_agendado < proxima_execucao:
proxima_execucao = datetime_agendado`. -/
def minStep (acc : Option Nat) (d : Nat) : Option Nat :=
  match acc with
  | none => some d
  | some p => if d < p then some d else some p

/-- `obter_proximo_horario_agendado(agenda)`: fold over all entries and all
their weekdays, keeping the smallest scheduled timestamp
(`proxima_execucao` starts as `None`). -/
def obter_proximo_horario_agendado (agenda : List AgendaEntry) (agora : Nat) :
    Option Nat :=
  agenda.foldl
    (fun acc entrada =>
      entrada.dias.foldl
        (fun acc dia => minStep acc (nextForDay agora dia entrada.horario))
        acc)
    none

/-- All scheduled timestamps the double loop of
`obter_proximo_horario_agendado` considers. -/
def candidatas (agenda : List AgendaEntry) (agora : Nat) : List Nat :=
  agenda.flatMap (fun e => e.dias.map (fun dia => nextForDay agora dia e.horario))

/-- The agenda hard-coded in `main.py`: weekdays 0–4 at 08:00. -/
def agendaPadrao : List AgendaEntry := [⟨[0, 1, 2, 3, 4], 8 * 60⟩]

/-! ## Python exceptions and string helpers -/

/-- The exception classes the scripts distinguish: `SQLAlchemyError` is the
only class `session_scope` catches; everything else flows through its
`finally`. -/
inductive Exn where
  | sqlAlchemy (msg : String)
  | keyError (msg : String)
  | attributeError (msg : String)
  | other (msg : String)
deriving Repr, DecidableEq

def Exn.isSQLAlchemyError : Exn → Bool
  | .sqlAlchemy _ => true
  | _ => false

/-- The characters `str.strip()` / `str.rstrip()` remove. -/
def pyWhitespace : List Char := [' ', '\t', '\n', '\r', '\x0b', '\x0c']

/-- Python `str.strip()` on a character list. -/
def pyStripList (l : List Char) : List Char :=
  ((l.dropWhile (· ∈ pyWhitespace)).reverse.dropWhile (· ∈ pyWhitespace)).reverse

/-- Python `str.strip()`. -/
def pyStrip (s : String) : String := ⟨pyStripList s.data⟩

/-- Python `str.rstrip()`. -/
def pyRStrip (s : String) : String :=
  ⟨(s.data.reverse.dropWhile (· ∈ pyWhitespace)).reverse⟩

/-- Python `str.upper()` (the column names involved are ASCII). -/
def pyUpper (s : String) : String := ⟨s.data.map Char.toUpper⟩

/-! ## `config_bd.py` — `session_scope`

The context manager is modelled as a function of the wrapped body's outcome
(`Except Exn α`).  Alongside the propagated outcome we record which session
methods ran: `commit` only after a normal completion, `rollback` only for a
`SQLAlchemyError` (which is re-raised), `close` always (the `finally`). -/

structure SessionLog where
  committed : Bool
  rolledBack : Bool
  closed : Bool
deriving Repr, DecidableEq

def session_scope {α : Type} (body : Except Exn α) : Except Exn α × SessionLog :=
  match body with
  | .ok a => (.ok a, ⟨true, false, true⟩)
  | .error e =>
    if e.isSQLAlchemyError then (.error e, ⟨false, true, true⟩)
    else (.error e, ⟨false, false, true⟩)

/-! ## DataFrames

A pandas DataFrame is modelled as a list of named columns.  A cell is a
numeric value (`num`, the rationals standing for the numbers involved), a
non-numeric non-null value (`nonnum`, e.g. a stray string), or a null
(`null`, NaN/None). -/

inductive Cell where
  | num (q : ℚ)
  | nonnum
  | null
deriving Repr, DecidableEq

abbrev DataFrame := List (String × List Cell)

/-- `df.columns`. -/
def DataFrame.names (df : DataFrame) : List String := df.map Prod.fst

/-- `df.empty`: no cells at all (no columns, or all columns without rows). -/
def DataFrame.isEmpty (df : DataFrame) : Bool := df.all (fun c => c.2.isEmpty)

/-- `df[name]`, as an optional column (pandas raises `KeyError` on `none`). -/
def DataFrame.col? (df : DataFrame) (name : String) : Option (List Cell) :=
  (df.find? (fun c => c.1 = name)).map Prod.snd

/-- `normalize_columns` (main.py): strip and uppercase every column name. -/
def normalize_columns (df : DataFrame) : DataFrame :=
  df.map (fun c => (pyUpper (pyStrip c.1), c.2))

/-! ## `main.py` — `executar_consulta_sql`

The filesystem and the database are the function's fallible collaborators:
`fileContent` is the outcome of reading the `.sql` file, `runQuery` the
outcome of `session.execute(...).fetchall()`.  Everything runs inside
`session_scope`; the outer `try/except` turns any exception into a log line
and an empty DataFrame. -/

structure QueryResult where
  keys : List String
  rows : List (List Cell)
deriving Repr, DecidableEq

/-- Build the frame from fetched rows: with rows, frame them and uppercase
the column names; with no rows, an empty frame carrying the uppercased
names (`pd.DataFrame(columns=[col.upper() for col in result.keys()])`). -/
def frameOfResult (r : QueryResult) : DataFrame :=
  if r.rows.isEmpty then r.keys.map (fun k => (pyUpper k, []))
  else r.keys.enum.map
    (fun ik => (pyUpper ik.2, r.rows.map (fun row => row.getD ik.1 Cell.null)))

/-- The body executed under `session_scope`: read the file, run the query,
frame the rows. -/
def corpoConsulta (fileContent : Except Exn String)
    (runQuery : String → Except Exn QueryResult) : Except Exn DataFrame := do
  let rawSql ← fileContent
  let result ← runQuery rawSql
  pure (frameOfResult result)

/-- `executar_consulta_sql`; the second component records whether the
`except` branch logged an error. -/
def executar_consulta_sql (fileContent : Except Exn String)
    (runQuery : String → Except Exn QueryResult) : DataFrame × Bool :=
  match (session_scope (corpoConsulta fileContent runQuery)).1 with
  | .ok df => (df, false)
  | .error _ => ([], true)

/-! ## `main.py` — value-column coercion and the report cycle -/

/-- One cell through `pd.to_numeric(col, errors="coerce").fillna(0.0)`:
numbers survive, non-numeric values coerce to NaN and then to `0.0`, nulls
fill to `0.0`. -/
def coerceCell : Cell → Cell
  | .num q => .num q
  | .nonnum => .num 0
  | .null => .num 0

/-- `if col in df.columns: df[col] = pd.to_numeric(df[col], errors="coerce").fillna(0.0)`. -/
def coerceColumn (df : DataFrame) (col : String) : DataFrame :=
  if col ∈ df.names then
    df.map (fun c => if c.1 = col then (c.1, c.2.map coerceCell) else c)
  else df

/-- The `for col in ["PVENDA_CORTE", "PVENDA_FALTA"]` loop of
`verificar_corte_falta`. -/
def coerceValueColumns (df : DataFrame) : DataFrame :=
  ["PVENDA_CORTE", "PVENDA_FALTA"].foldl coerceColumn df

/-- `int(df[name].sum())` in the log lines: `KeyError` if the column is
absent, a conversion error if some cell is not numeric, otherwise the sum. -/
def sumColumnAsInt (df : DataFrame) (name : String) : Except Exn ℚ :=
  match df.col? name with
  | none => .error (.keyError name)
  | some cells =>
    match cells.mapM (fun c => match c with | .num q => some q | _ => none) with
    | none => .error (.other ("valor nao numerico em " ++ name))
    | some qs => .ok (qs.foldl (· + ·) 0)

/-- `df[name].sum()` merely fed to `formatar_como_moeda` (which never
raises): only the column lookup can raise. -/
def requireColumn (df : DataFrame) (name : String) : Except Exn Unit :=
  match df.col? name with
  | none => .error (.keyError name)
  | some _ => .ok ()

/-- The analysis/log block of `verificar_corte_falta` over one synthetic
frame: skipped when the frame is empty, else it reads the six metric
columns in source order. -/
def logSection (df : DataFrame) : Except Exn Unit := do
  if df.isEmpty then return ()
  let _ ← sumColumnAsInt df "QT_CORTE"
  let _ ← sumColumnAsInt df "COUNT_PED_CORTE"
  requireColumn df "PVENDA_CORTE"
  let _ ← sumColumnAsInt df "QT_FALTA"
  let _ ← sumColumnAsInt df "COUNT_PED_FALTA"
  requireColumn df "PVENDA_FALTA"

/-- Both log blocks, sequenced as in the source (yesterday first, then the
month block). -/
def analiseLogs (ds dm : DataFrame) : Except Exn Unit := do
  logSection ds
  logSection dm

/-- `cell > 0` in a pandas comparison: positive numbers are `True`, nulls
(NaN) compare `False`.  A rational is positive iff its numerator is. -/
def cellGtZero : Cell → Bool
  | .num q => 0 < q.num
  | .nonnum => false
  | .null => false

def cellIsNonnum : Cell → Bool
  | .nonnum => true
  | _ => false

/-- `df[name] > 0`: `KeyError` when the column is absent; `TypeError` when a
non-numeric (string-like) value meets the `> 0` comparison; otherwise the
boolean mask. -/
def serieMaiorQueZero (df : DataFrame) (name : String) : Except Exn (List Bool) :=
  match df.col? name with
  | none => .error (.keyError name)
  | some cells =>
    if cells.any cellIsNonnum then
      .error (.other ("comparacao invalida em " ++ name))
    else .ok (cells.map cellGtZero)

/-- `df[mask]`: keep, in every column, the rows whose mask entry is `True`
(rows are aligned by index across the columns). -/
def filterByMask (df : DataFrame) (mask : List Bool) : DataFrame :=
  df.map (fun c => (c.1, (c.2.zip mask).filterMap
    (fun p => if p.2 then some p.1 else none)))

/-- The column accesses of `gerar_tabela_individual_html` /
`gerar_tabela_individual_html_falta` that can raise (the HTML text itself is
pure string building): on a non-empty frame, normalize, then
`dados["CODFILIAL"]`, the `groupby("CODFILIAL").agg` over the three metric
columns with `int(...)` of the quantity sums (which needs those columns
present and numeric), and the `.sum()` of the value column fed to the
never-raising `formatar_como_moeda` (presence only). -/
def gerar_tabela_reqs (dados : DataFrame) (qt cnt pv : String) : Except Exn Unit := do
  if DataFrame.isEmpty dados then return ()
  let dados := normalize_columns dados
  requireColumn dados "CODFILIAL"
  let _ ← sumColumnAsInt dados qt
  let _ ← sumColumnAsInt dados cnt
  requireColumn dados pv

/-- The per-branch second half of `gerar_rank_html`: the
`dados[dados[qt] > 0]` filter, and — when some row survives it — the
`groupby(["CODPROD", "DESCRICAO"]).agg` (needs those key columns) and the
`int(...)` of the grouped quantity/order-count sums (needs the filtered
columns numeric). -/
def rankCampos (dados : DataFrame) (qt cnt : String) : Except Exn Unit := do
  let mask ← serieMaiorQueZero dados qt
  if mask.any id then do
    let filtrado := filterByMask dados mask
    requireColumn filtrado "CODPROD"
    requireColumn filtrado "DESCRICAO"
    let _ ← sumColumnAsInt filtrado qt
    let _ ← sumColumnAsInt filtrado cnt
    return ()
  else return ()

/-- The fallible accesses of `gerar_rank_html`: empty frames and frames
with neither `PVENDA_` column return early (`""`); otherwise the corte or
falta fields go through `rankCampos`. -/
def gerar_rank_reqs (dados : DataFrame) : Except Exn Unit := do
  if DataFrame.isEmpty dados then return ()
  let dados := normalize_columns dados
  if "PVENDA_CORTE" ∈ DataFrame.names dados then
    rankCampos dados "QT_CORTE" "COUNT_PED_CORTE"
  else if "PVENDA_FALTA" ∈ DataFrame.names dados then
    rankCampos dados "QT_FALTA" "COUNT_PED_FALTA"
  else return ()

/-- The fallible part of `construir_corpo_email`, in source order: the four
per-branch tables (corte/falta of yesterday, corte/falta of the month), then
the two top-5 rankings. -/
def construir_corpo_email_reqs (dados_ontem dados_mes : DataFrame) :
    Except Exn Unit := do
  gerar_tabela_reqs dados_ontem "QT_CORTE" "COUNT_PED_CORTE" "PVENDA_CORTE"
  gerar_tabela_reqs dados_ontem "QT_FALTA" "COUNT_PED_FALTA" "PVENDA_FALTA"
  gerar_tabela_reqs dados_mes "QT_CORTE" "COUNT_PED_CORTE" "PVENDA_CORTE"
  gerar_tabela_reqs dados_mes "QT_FALTA" "COUNT_PED_FALTA" "PVENDA_FALTA"
  gerar_rank_reqs dados_ontem
  gerar_rank_reqs dados_mes

/-- The four frames handed to `gerar_excel_em_memoria`. -/
structure ExcelPayload where
  sintetico : DataFrame
  sinteticoMes : DataFrame
  analiticoCorte : DataFrame
  analiticoFalta : DataFrame
deriving Repr, DecidableEq

/-- The observable outcome of one `verificar_corte_falta` cycle:
whether `enviar_email` was invoked, the frames handed to
`gerar_excel_em_memoria` (`none` when no spreadsheet was built), and
whether the outer `except` logged an error. -/
structure CycleOutcome where
  emailAttempted : Bool
  excelFrames : Option ExcelPayload
  errorLogged : Bool
deriving Repr, DecidableEq

/-- `verificar_corte_falta`, as a function of the four query results
(each already the `DataFrame` produced by `executar_consulta_sql`).
The body normalizes and coerces the frames and runs the log blocks; when
some synthetic frame is non-empty it builds the spreadsheet, then the HTML
body (`construir_corpo_email`, whose table/ranking column accesses can
raise `KeyError`/`TypeError`), and only then calls `enviar_email`; any
exception is caught by the outer `try/except` and logged, in which case no
send is attempted. -/
def verificar_corte_falta (ds dm dac daf : DataFrame) : CycleOutcome :=
  let ds := coerceValueColumns (normalize_columns ds)
  let dm := coerceValueColumns (normalize_columns dm)
  let dac := coerceValueColumns (normalize_columns dac)
  let daf := coerceValueColumns (normalize_columns daf)
  match analiseLogs ds dm with
  | .ok _ =>
    if !ds.isEmpty || !dm.isEmpty then
      match construir_corpo_email_reqs ds dm with
      | .ok _ => ⟨true, some ⟨ds, dm, dac, daf⟩, false⟩
      | .error _ => ⟨false, some ⟨ds, dm, dac, daf⟩, true⟩
    else ⟨false, none, false⟩
  | .error _ => ⟨false, none, true⟩

/-- Two invocations of the cycle on the same day with the same data (the
process keeps no run history between invocations): the number of e-mail
sends attempted. -/
def emailsInTwoInvocations (ds dm dac daf : DataFrame) : Nat :=
  [verificar_corte_falta ds dm dac daf,
   verificar_corte_falta ds dm dac daf].countP (·.emailAttempted)

/-! ## `main.py` — `enviar_email` and `sentinela_core.py` — `send_html` -/

structure EnvioOutcome where
  sesCalled : Bool
  errorLogged : Bool
deriving Repr, DecidableEq

/-- `enviar_email`: `os.getenv("EMAIL_DESTINATARIOS").split(";")` raises
`AttributeError` when the variable is unset (`None.split`); the message
build is pure; `ses_client.send_raw_email` may raise.  The enclosing
`try/except Exception` turns every exception into a log line, so the
function always returns normally. -/
def enviar_email (emailDestinatarios : Option String)
    (sesSend : List String → Except Exn Unit) : EnvioOutcome :=
  match emailDestinatarios with
  | none => ⟨false, true⟩
  | some s =>
    match sesSend (s.splitOn ";") with
    | .ok _ => ⟨true, false⟩
    | .error _ => ⟨true, true⟩

structure SendHtmlOutcome where
  attempted : Bool
  recipients : List String
  errorLogged : Bool
deriving Repr, DecidableEq

/-- `SMTPClient.send_html`: an empty `to` logs
"Nenhum destinatário definido (EMAIL_PARA)." and returns before any SMTP
traffic; otherwise the mail is sent to `to + (cc or []) + (bcc or [])` and
any exception from the SMTP conversation is caught and logged. -/
def SMTPClient.send_html (to_ cc bcc : List String)
    (smtpSend : List String → Except Exn Unit) : SendHtmlOutcome :=
  if to_.isEmpty then ⟨false, [], true⟩
  else
    let recipients := to_ ++ cc ++ bcc
    match smtpSend recipients with
    | .ok _ => ⟨true, recipients, false⟩
    | .error _ => ⟨true, recipients, true⟩

/-! ## Currency formatters (`formatar_como_moeda` in `main.py`,
`moeda_br` in `sentinela_core.py`)

Both build `f"R$ {x:,.2f}"` and then swap `,`/`.` through the placeholder
`v`.  Inputs are modelled by `PyVal`; binary floats are modelled as the
rationals they denote. -/

inductive PyVal where
  | int (n : ℤ)
  | float (q : ℚ)
  | str (s : String)
  | none_
deriving Repr, DecidableEq

/-- Round `a / d` (a non-negative fraction) half-to-even to an integer —
the rounding `format(x, '.2f')` performs on the scaled value. -/
def centsHalfEven (a d : Nat) : Nat :=
  let f := a / d
  let r := a % d
  if 2 * r < d then f
  else if 2 * r > d then f + 1
  else if f % 2 = 0 then f else f + 1

/-- Insert `,` after every third digit, on a least-significant-first digit
list; the counter is the number of digits still to emit before the next
separator. -/
def sepMilhares : Nat → List Char → List Char
  | _, [] => []
  | 0, c :: cs => ',' :: c :: sepMilhares 2 cs
  | k + 1, c :: cs => c :: sepMilhares k cs

/-- Two decimal digits for the cents part. -/
def doisDigitos (n : Nat) : String :=
  (if n < 10 then "0" else "") ++ toString n

/-- Python `f"{x:,.2f}"` on a number: sign, thousands-grouped integer part,
point, two decimals.  Working from the numerator and denominator keeps the
whole computation in `Nat`/`Int` (the value rounded is `|q| * 100`). -/
def pyFormatComma2f (q : ℚ) : String :=
  let sign := if q.num < 0 then "-" else ""
  let cents := centsHalfEven (q.num.natAbs * 100) q.den
  let intChars := Nat.toDigits 10 (cents / 100)
  let grouped := (sepMilhares 3 intChars.reverse).reverse
  sign ++ ⟨grouped⟩ ++ "." ++ doisDigitos (cents % 100)

/-- `.replace(",", "v").replace(".", ",").replace("v", ".")` — each pattern
is a single character, so the chain is a per-character map. -/
def trocaSeparadores (s : String) : String :=
  let s1 := s.data.map (fun c => if c = ',' then 'v' else c)
  let s2 := s1.map (fun c => if c = '.' then ',' else c)
  ⟨s2.map (fun c => if c = 'v' then '.' else c)⟩

/-- `formatar_como_moeda` (main.py): formats ints and floats; the format
spec `,.2f` raises on a `str` and on `None`, so those fall into the bare
`except` and yield `"R$ 0,00"`. -/
def formatar_como_moeda (valor : PyVal) : String :=
  match valor with
  | .int n => "R$ " ++ trocaSeparadores (pyFormatComma2f (n : ℚ))
  | .float q => "R$ " ++ trocaSeparadores (pyFormatComma2f q)
  | .str _ => "R$ 0,00"
  | .none_ => "R$ 0,00"

/-- The value of a run of decimal digits; `none` when some character is not
a digit. -/
def digitsVal? (l : List Char) : Option Nat :=
  if l.all Char.isDigit then
    some (l.foldl (fun a c => a * 10 + (c.toNat - 48)) 0)
  else none

/-- The rational `±(num / den)` in lowest terms, built with explicit `gcd`
normalisation so that it evaluates by reduction (the library's `mkRat` does
not reduce). -/
def ratAux (neg : Bool) (num den : Nat) (hden : den ≠ 0) : ℚ :=
  let g := Nat.gcd num den
  have hg : 0 < g := Nat.gcd_pos_of_pos_right _ (Nat.pos_of_ne_zero hden)
  have hdg : den / g ≠ 0 :=
    Nat.ne_of_gt
      (Nat.div_pos (Nat.le_of_dvd (Nat.pos_of_ne_zero hden) (Nat.gcd_dvd_right _ _)) hg)
  have hcop : Nat.Coprime (num / g) (den / g) := Nat.coprime_div_gcd_div_gcd hg
  if neg then ⟨-(num / g : Nat), den / g, hdg, by simpa using hcop⟩
  else ⟨(num / g : Nat), den / g, hdg, by simpa using hcop⟩

/-- Python's builtin `float()` on a plain decimal numeral (optional sign,
optional fractional part): the value is `±(ip . fp)`, i.e.
`±(ip * 10^|fp| + fp) / 10^|fp|`.  This models `float` only on such
numerals — which is all the theorems below apply it to; the exotic forms
(`inf`, `nan`, exponents, underscores) are out of scope. -/
def pyFloatOfString (s : String) : Option ℚ :=
  let t := pyStripList s.data
  let (neg, t) : Bool × List Char :=
    match t with
    | '-' :: r => (true, r)
    | '+' :: r => (false, r)
    | _ => (false, t)
  let ip := t.takeWhile (· ≠ '.')
  match t.drop ip.length with
  | [] => (digitsVal? ip).bind fun n =>
      if ip.isEmpty then none else some (ratAux neg n 1 one_ne_zero)
  | '.' :: fp =>
    (digitsVal? ip).bind fun n =>
      (digitsVal? fp).bind fun f =>
        if ip.isEmpty ∧ fp.isEmpty then none
        else some (ratAux neg (n * 10 ^ fp.length + f) (10 ^ fp.length)
          (pow_pos (by norm_num : (0:ℕ) < 10) _).ne')
  | _ => none

/-- Python `float(v)` on the modelled values (`None` raises `TypeError`). -/
def pyFloat : PyVal → Option ℚ
  | .int n => some n
  | .float q => some q
  | .str s => pyFloatOfString s
  | .none_ => none

/-- `moeda_br` (sentinela_core.py): `float(v)` first, then the same
`f"R$ {…:,.2f}"` + separator swap; any exception yields `"R$ 0,00"`. -/
def moeda_br (v : PyVal) : String :=
  match pyFloat v with
  | some q => "R$ " ++ trocaSeparadores (pyFormatComma2f q)
  | none => "R$ 0,00"

/-! ## `sentinela_core.py` — sheet-name sanitisation -/

/-- `_INVALID_SHEET_CHARS = set("[]:*?/\\'")`. -/
def invalidSheetChars : List Char := ['[', ']', ':', '*', '?', '/', '\\', '\'']

/-- `_safe_sheet_name_base`: replace invalid characters by `-`, strip,
default to `"Planilha"` when empty, cut to 31 characters. -/
def safe_sheet_name_base (name : String) : String :=
  let clean := name.data.map (fun ch => if ch ∈ invalidSheetChars then '-' else ch)
  let clean := pyStripList clean
  let clean := if clean.isEmpty then "Planilha".data else clean
  ⟨clean.take 31⟩

/-- Decimal digits of `n`, least significant first; the first argument is
fuel (`n` itself always suffices). -/
def digitosRev : Nat → Nat → List Char
  | 0, _ => []
  | fuel + 1, n =>
    if n = 0 then [] else Nat.digitChar (n % 10) :: digitosRev fuel (n / 10)

/-- Python `str(i)` for a natural number. -/
def strOfNat (n : Nat) : String :=
  if n = 0 then "0" else ⟨(digitosRev n n).reverse⟩

/-- The candidate tried at loop index `i`:
`(base[:31 - len(suffix)]).rstrip() + f" ({i})"`. -/
def sheetCandidate (base : String) (i : Nat) : String :=
  let suffix := " (" ++ strOfNat i ++ ")"
  let lim := 31 - suffix.length
  pyRStrip ⟨base.data.take lim⟩ ++ suffix

/-- The `for i in range(2, 200)` search for a free candidate. -/
def findFreeCandidate (used : List String) (base : String) :
    List Nat → Option String
  | [] => none
  | i :: is =>
    if sheetCandidate base i ∈ used then findFreeCandidate used base is
    else some (sheetCandidate base i)

/-- `safe_sheet_name(name, used)`.  The Python `set` is modelled as a
duplicate-free list (`len(used)` = its length); mutation is modelled by
returning the updated set alongside the chosen name. -/
def safe_sheet_name (name : String) (used : Option (List String)) :
    String × Option (List String) :=
  let base := safe_sheet_name_base name
  match used with
  | none => (base, none)
  | some u =>
    if base ∈ u then
      match findFreeCandidate u base (List.range' 2 198) with
      | some cand => (cand, some (cand :: u))
      | none =>
        let fallback := (⟨base.data.take 27⟩ : String) ++ " (" ++ strOfNat (u.length + 1) ++ ")"
        (fallback, some (fallback :: u))
    else (base, some (base :: u))

/-! ## `sentinela_core.py` — closing-month subject and attachment name

A `datetime` is modelled by its calendar fields (the parts these functions
read). -/

structure PyDateTime where
  year : Nat
  month : Nat
  day : Nat
  hour : Nat
  minute : Nat
deriving Repr, DecidableEq

/-- Gregorian leap year, as `datetime` implements it. -/
def isLeap (y : Nat) : Bool := y % 4 = 0 && (y % 100 ≠ 0 || y % 400 = 0)

/-- Days in a month of the proleptic Gregorian calendar. -/
def daysInMonth (y m : Nat) : Nat :=
  if m = 2 then (if isLeap y then 29 else 28)
  else if m = 4 ∨ m = 6 ∨ m = 9 ∨ m = 11 then 30
  else 31

/-- `hoje.replace(day=1)`. -/
def replaceDay1 (h : PyDateTime) : PyDateTime := { h with day := 1 }

/-- `- timedelta(days=1)` on a valid date. -/
def subOneDay (h : PyDateTime) : PyDateTime :=
  if h.day > 1 then { h with day := h.day - 1 }
  else if h.month > 1 then
    { h with month := h.month - 1, day := daysInMonth h.year (h.month - 1) }
  else { h with year := h.year - 1, month := 12, day := 31 }

/-- The hard-coded Portuguese month names. -/
def meses : List String :=
  ["Janeiro", "Fevereiro", "Março", "Abril", "Maio", "Junho", "Julho",
   "Agosto", "Setembro", "Outubro", "Novembro", "Dezembro"]

/-- `hoje.strftime("%d/%m/%Y %H:%M")`. -/
def strftimeDataHora (h : PyDateTime) : String :=
  doisDigitos h.day ++ "/" ++ doisDigitos h.month ++ "/" ++ toString h.year ++
    " " ++ doisDigitos h.hour ++ ":" ++ doisDigitos h.minute

/-- `build_subject_corte`. -/
def build_subject_corte (hoje : PyDateTime) (is_fechamento : Bool) : String :=
  if is_fechamento then
    let ref := subOneDay (replaceDay1 hoje)
    "Sentinela · Corte · Fechamento - " ++ meses.getD (ref.month - 1) "" ++
      "/" ++ toString ref.year
  else "Sentinela · Corte - " ++ strftimeDataHora hoje

/-- `build_attachment_name`. -/
def build_attachment_name (hoje : PyDateTime) (is_fechamento : Bool) : String :=
  let dataDdmmyyyy := doisDigitos hoje.day ++ doisDigitos hoje.month ++ toString hoje.year
  if is_fechamento then
    let ref := subOneDay (replaceDay1 hoje)
    "Sentinela Corte Fechamento " ++ meses.getD (ref.month - 1) "" ++ " " ++
      toString ref.year ++ " " ++ dataDdmmyyyy ++ ".xlsx"
  else "Sentinela Corte " ++ dataDdmmyyyy ++ ".xlsx"

/-! ## Concrete scenario data used in the witnesses and counterexamples -/

/-- One full cycle wired through `executar_consulta_sql`: each of the four
query files reads fine; `r1 … r4` are the database outcomes of the four
queries, which feed the four frames of `verificar_corte_falta`. -/
def cicloComConsultas (r1 r2 r3 r4 : Except Exn QueryResult) : CycleOutcome :=
  verificar_corte_falta
    (executar_consulta_sql (.ok "sintetico_corte_falta.sql") (fun _ => r1)).1
    (executar_consulta_sql (.ok "sintetico_corte_falta_mes.sql") (fun _ => r2)).1
    (executar_consulta_sql (.ok "analitico_corte_mes.sql") (fun _ => r3)).1
    (executar_consulta_sql (.ok "analitico_falta_mes.sql") (fun _ => r4)).1

/-- A one-row result of the yesterday-synthetic query, with every column
the cycle's log block and the e-mail body renderer read: branch code,
product code, product description (a string, hence a non-numeric cell) and
the six metrics. -/
def resultadoSintetico : QueryResult :=
  ⟨["CODFILIAL", "CODPROD", "DESCRICAO", "QT_CORTE", "COUNT_PED_CORTE",
    "PVENDA_CORTE", "QT_FALTA", "COUNT_PED_FALTA", "PVENDA_FALTA"],
   [[.num 1, .num 1001, .nonnum, .num 5, .num 2, .num 100,
     .num 1, .num 1, .num 50]]⟩

/-- The frame of that result: a non-empty yesterday-synthetic DataFrame. -/
def dfSinteticoExemplo : DataFrame := frameOfResult resultadoSintetico

/-- A 31-character sheet name (no invalid characters, no edge whitespace):
its sanitised base is itself. -/
def nomeLongo : String := "ABCDEFGHIJKLMNOPQRSTUVWXYZABCDE"

/-- A `used` set holding `nomeLongo` and every candidate the
`range(2, 200)` loop can try for it, so that `safe_sheet_name` reaches its
fallback branch. -/
def usadosCheios : List String :=
  nomeLongo :: (List.range' 2 198).map (sheetCandidate nomeLongo)

/-- The fallback name `safe_sheet_name` emits for `nomeLongo` when `used`
has 200 entries: `base[:27] + " (201)"`. -/
def nomeFallback : String :=
  (⟨nomeLongo.data.take 27⟩ : String) ++ " (" ++ strOfNat 201 ++ ")"

/-- `usadosCheios` with the fallback name itself already taken: the
fallback branch emits that very name again, since it is never checked
against `used`. -/
def usadosComFallback : List String := nomeFallback :: usadosCheios

/-! ## Scheduling lemmas -/

lemma nextForDay_gt (agora dia horario : Nat) : agora < nextForDay agora dia horario := by
  simp only [nextForDay, weekday, minutosDia, minutosSemana]
  split <;> omega

lemma nextForDay_tod (agora dia horario : Nat) (hh : horario < 1440) :
    timeOfDay (nextForDay agora dia horario) = horario := by
  simp only [nextForDay, timeOfDay, weekday, minutosDia, minutosSemana]
  split <;> omega

lemma nextForDay_wd (agora dia horario : Nat) (hh : horario < 1440) :
    weekday (nextForDay agora dia horario) = dia % 7 := by
  simp only [nextForDay, weekday, minutosDia, minutosSemana]
  split <;> omega

lemma nextForDay_min (agora dia horario t : Nat) (hd : dia < 7) (hh : horario < 1440)
    (ht : agora < t) (hw : weekday t = dia) (htod : timeOfDay t = horario) :
    nextForDay agora dia horario ≤ t := by
  simp only [nextForDay, weekday, minutosDia, minutosSemana]
  simp only [weekday, timeOfDay, minutosDia] at hw htod
  split <;> omega

lemma minStep_isSome (acc : Option Nat) (d : Nat) : (minStep acc d).isSome := by
  cases acc <;> simp only [minStep] <;> [rfl; split] <;> rfl

lemma foldl_minStep_isSome (l : List Nat) (acc : Option Nat)
    (h : acc.isSome ∨ l ≠ []) : (l.foldl minStep acc).isSome := by
  induction l generalizing acc with
  | nil => simpa using h.resolve_right (by simp)
  | cons x xs ih => exact ih _ (Or.inl (minStep_isSome acc x))

lemma foldl_minStep_le (l : List Nat) (acc : Option Nat) (r : Nat)
    (h : l.foldl minStep acc = some r) :
    (acc = some r ∨ r ∈ l) ∧ (∀ x ∈ l, r ≤ x) ∧ (∀ p, acc = some p → r ≤ p) := by
  induction l generalizing acc with
  | nil =>
    simp only [List.foldl_nil] at h
    refine ⟨Or.inl h, by simp, ?_⟩
    intro p hp
    rw [h] at hp
    injection hp with hp
    omega
  | cons x xs ih =>
    simp only [List.foldl_cons] at h
    obtain ⟨h1, h2, h3⟩ := ih _ h
    cases acc with
    | none =>
      have hx : r ≤ x := h3 x rfl
      refine ⟨?_, ?_, by simp⟩
      · rcases h1 with h1 | h1
        · exact Or.inr (by simp [minStep] at h1; simp [h1])
        · exact Or.inr (List.mem_cons_of_mem _ h1)
      · intro y hy
        rcases List.mem_cons.mp hy with rfl | hy
        · exact hx
        · exact h2 y hy
    | some p =>
      simp only [minStep] at h1 h3
      by_cases hxp : x < p
      · simp only [if_pos hxp] at h1 h3
        have hx : r ≤ x := h3 x rfl
        refine ⟨?_, ?_, ?_⟩
        · rcases h1 with h1 | h1
          · exact Or.inr (by simp at h1; simp [h1])
          · exact Or.inr (List.mem_cons_of_mem _ h1)
        · intro y hy
          rcases List.mem_cons.mp hy with rfl | hy
          · exact hx
          · exact h2 y hy
        · intro q hq
          injection hq with hq
          omega
      · simp only [if_neg hxp] at h1 h3
        have hp : r ≤ p := h3 p rfl
        refine ⟨?_, ?_, ?_⟩
        · rcases h1 with h1 | h1
          · exact Or.inl (by simp at h1 ⊢; omega)
          · exact Or.inr (List.mem_cons_of_mem _ h1)
        · intro y hy
          rcases List.mem_cons.mp hy with rfl | hy
          · omega
          · exact h2 y hy
        · intro q hq
          injection hq with hq
          omega

lemma foldl_agenda_eq (agenda : List AgendaEntry) (agora : Nat) (acc : Option Nat) :
    agenda.foldl
      (fun acc entrada =>
        entrada.dias.foldl
          (fun acc dia => minStep acc (nextForDay agora dia entrada.horario)) acc)
      acc
    = (candidatas agenda agora).foldl minStep acc := by
  induction agenda generalizing acc with
  | nil => simp [candidatas]
  | cons e es ih =>
    have hc : candidatas (e :: es) agora
        = e.dias.map (fun d => nextForDay agora d e.horario) ++ candidatas es agora := by
      simp [candidatas]
    simp only [List.foldl_cons]
    rw [hc, List.foldl_append, ← ih, List.foldl_map]

lemma obter_eq_foldl (agenda : List AgendaEntry) (agora : Nat) :
    obter_proximo_horario_agendado agenda agora
      = (candidatas agenda agora).foldl minStep none := by
  simpa [obter_proximo_horario_agendado] using foldl_agenda_eq agenda agora none

lemma mem_candidatas {agenda : List AgendaEntry} {agora c : Nat} :
    c ∈ candidatas agenda agora ↔
      ∃ e ∈ agenda, ∃ dia ∈ e.dias, c = nextForDay agora dia e.horario := by
  simp [candidatas, eq_comm]

lemma obter_gt {agenda : List AgendaEntry} {agora r : Nat}
    (h : obter_proximo_horario_agendado agenda agora = some r) : agora < r := by
  rw [obter_eq_foldl] at h
  obtain ⟨h1, -, -⟩ := foldl_minStep_le _ _ _ h
  rcases h1 with h1 | h1
  · cases h1
  · obtain ⟨e, -, dia, -, rfl⟩ := mem_candidatas.mp h1
    exact nextForDay_gt agora dia e.horario

/-- **C1.** For every agenda with at least one scheduled weekday (entries
with weekdays 0–6 and a valid time of day) and every timestamp `agora`,
`obter_proximo_horario_agendado` returns a timestamp strictly greater than
`agora`, whose weekday and time of day match some agenda entry, and which is
the earliest such timestamp.  The witness instantiates the Monday-08:00
corner: with the weekday-0–4/08:00 agenda and `agora` exactly Monday 08:00
(minute 480), the result is minute 1920 — the following Tuesday at 08:00. -/
theorem C1_proximo_horario (agenda : List AgendaEntry) (agora : Nat)
    (hne : ∃ e ∈ agenda, e.dias ≠ [])
    (hhor : ∀ e ∈ agenda, e.horario < 1440)
    (hdias : ∀ e ∈ agenda, ∀ d ∈ e.dias, d < 7) :
    ∃ r, obter_proximo_horario_agendado agenda agora = some r ∧
      agora < r ∧
      (∃ e ∈ agenda, weekday r ∈ e.dias ∧ timeOfDay r = e.horario) ∧
      (∀ t, agora < t →
        (∃ e ∈ agenda, weekday t ∈ e.dias ∧ timeOfDay t = e.horario) → r ≤ t) := by
  obtain ⟨e0, he0, hd0⟩ := hne
  have hcne : candidatas agenda agora ≠ [] := by
    obtain ⟨d0, hd0m⟩ := List.exists_mem_of_ne_nil _ hd0
    intro hnil
    have hmem : nextForDay agora d0 e0.horario ∈ candidatas agenda agora :=
      mem_candidatas.mpr ⟨e0, he0, d0, hd0m, rfl⟩
    simp [hnil] at hmem
  have hsome : (obter_proximo_horario_agendado agenda agora).isSome := by
    rw [obter_eq_foldl]
    exact foldl_minStep_isSome _ _ (Or.inr hcne)
  obtain ⟨r, hr⟩ := Option.isSome_iff_exists.mp hsome
  have hr' := hr
  rw [obter_eq_foldl] at hr'
  obtain ⟨h1, h2, -⟩ := foldl_minStep_le _ _ _ hr'
  refine ⟨r, hr, obter_gt hr, ?_, ?_⟩
  · rcases h1 with h1 | h1
    · cases h1
    obtain ⟨e, he, dia, hdm, rfl⟩ := mem_candidatas.mp h1
    have hd7 : dia < 7 := hdias e he dia hdm
    refine ⟨e, he, ?_, nextForDay_tod _ _ _ (hhor e he)⟩
    rw [nextForDay_wd _ _ _ (hhor e he), Nat.mod_eq_of_lt hd7]
    exact hdm
  · rintro t ht ⟨e, he, hwt, htod⟩
    have hcand : nextForDay agora (weekday t) e.horario ∈ candidatas agenda agora :=
      mem_candidatas.mpr ⟨e, he, weekday t, hwt, rfl⟩
    have hle : r ≤ nextForDay agora (weekday t) e.horario := h2 _ hcand
    have hwlt : weekday t < 7 := Nat.mod_lt _ (by norm_num)
    have hmin : nextForDay agora (weekday t) e.horario ≤ t :=
      nextForDay_min agora (weekday t) e.horario t hwlt (hhor e he) ht rfl htod
    omega

/-- Witness for C1: the hard-coded agenda at `agora` = Monday 08:00 exactly
(minute 480); the next run is minute 1920, which is Tuesday (weekday 1)
at 08:00, not the same instant. -/
theorem C1_witness :
    (∃ r, obter_proximo_horario_agendado agendaPadrao 480 = some r ∧ 480 < r ∧
      (∃ e ∈ agendaPadrao, weekday r ∈ e.dias ∧ timeOfDay r = e.horario) ∧
      (∀ t, 480 < t →
        (∃ e ∈ agendaPadrao, weekday t ∈ e.dias ∧ timeOfDay t = e.horario) → r ≤ t)) ∧
    obter_proximo_horario_agendado agendaPadrao 480 = some 1920 ∧
    weekday 1920 = 1 ∧ timeOfDay 1920 = 480 :=
  ⟨C1_proximo_horario agendaPadrao 480 (by decide) (by decide) (by decide),
   by decide, by decide, by decide⟩

/-- **C2 (counterexample).** There is no `last_sent_date` guard anywhere in
`main.py`: with a non-empty yesterday-synthetic frame, entering the report
cycle twice on the same day attempts two e-mail sends — the second
invocation does not short-circuit, refuting the claim that at most one send
can occur per day. -/
theorem C2_counterexample :
    ¬ (emailsInTwoInvocations dfSinteticoExemplo [] [] [] ≤ 1) := by decide

/-- **C2 (amended).** The cycle keeps no run history: a second invocation on
the same day makes exactly the same decision as the first, so two
invocations attempt `2 × (sends of one invocation)` e-mails.  The only
once-per-slot protection is the scheduler: the next scheduled wake time is
always strictly after `agora`. -/
theorem C2_sem_guarda (ds dm dac daf : DataFrame) :
    emailsInTwoInvocations ds dm dac daf =
      2 * (if (verificar_corte_falta ds dm dac daf).emailAttempted then 1 else 0) ∧
    (∀ agenda agora r,
      obter_proximo_horario_agendado agenda agora = some r → agora < r) := by
  constructor
  · by_cases h : (verificar_corte_falta ds dm dac daf).emailAttempted <;>
      simp [emailsInTwoInvocations, List.countP_cons, h]
  · intro agenda agora r h
    exact obter_gt h

/-- Witness for C2 (amended): on the example data two invocations in one day
send twice, and a concrete next-run computation is strictly in the future. -/
theorem C2_witness :
    emailsInTwoInvocations dfSinteticoExemplo [] [] [] = 2 ∧ (480 : Nat) < 1920 :=
  ⟨by rw [(C2_sem_guarda dfSinteticoExemplo [] [] []).1]; decide,
   (C2_sem_guarda [] [] [] []).2 agendaPadrao 480 1920 (by decide)⟩

/-- **C3.** For every valid timestamp `h`, the closing reference
`h.replace(day=1) - timedelta(days=1)` is the last day of the month
preceding `h`'s month (December of the previous year when `h` is in
January, with `daysInMonth` giving the leap-aware last day), and
`build_subject_corte h true` / `build_attachment_name h true` name exactly
that previous month and its year. -/
theorem C3_fechamento (h : PyDateTime) (hm1 : 1 ≤ h.month) (hm2 : h.month ≤ 12) :
    (subOneDay (replaceDay1 h)).month = (if h.month = 1 then 12 else h.month - 1) ∧
    (subOneDay (replaceDay1 h)).year = (if h.month = 1 then h.year - 1 else h.year) ∧
    (subOneDay (replaceDay1 h)).day =
      daysInMonth (subOneDay (replaceDay1 h)).year (subOneDay (replaceDay1 h)).month ∧
    build_subject_corte h true =
      "Sentinela · Corte · Fechamento - " ++
        meses.getD ((if h.month = 1 then 12 else h.month - 1) - 1) "" ++ "/" ++
        toString (if h.month = 1 then h.year - 1 else h.year) ∧
    build_attachment_name h true =
      "Sentinela Corte Fechamento " ++
        meses.getD ((if h.month = 1 then 12 else h.month - 1) - 1) "" ++ " " ++
        toString (if h.month = 1 then h.year - 1 else h.year) ++ " " ++
        (doisDigitos h.day ++ doisDigitos h.month ++ toString h.year) ++ ".xlsx" := by
  by_cases hm : h.month = 1
  · simp [subOneDay, replaceDay1, build_subject_corte, build_attachment_name,
      daysInMonth, isLeap, hm]
  · have hgt : 1 < h.month := by omega
    simp [subOneDay, replaceDay1, build_subject_corte, build_attachment_name, hm, hgt]

/-- Witness for C3: the leap-February boundary (2024-03-01 yields
Fevereiro/2024 with 29 days) and the December-to-January rollover
(January 2025 yields Dezembro/2024). -/
theorem C3_witness :
    ((subOneDay (replaceDay1 ⟨2024, 3, 1, 9, 0⟩)).month = (if (3:Nat) = 1 then 12 else 3 - 1)) ∧
    build_subject_corte ⟨2024, 3, 1, 9, 0⟩ true =
      "Sentinela · Corte · Fechamento - Fevereiro/2024" ∧
    (subOneDay (replaceDay1 ⟨2024, 3, 1, 9, 0⟩)).day = 29 ∧
    build_subject_corte ⟨2025, 1, 10, 8, 30⟩ true =
      "Sentinela · Corte · Fechamento - Dezembro/2024" ∧
    build_attachment_name ⟨2024, 3, 1, 9, 0⟩ true =
      "Sentinela Corte Fechamento Fevereiro 2024 01032024.xlsx" :=
  ⟨(C3_fechamento ⟨2024, 3, 1, 9, 0⟩ (by decide) (by decide)).1,
   by decide, by decide, by decide, by decide⟩

/-! ## Transaction, query-layer and cycle lemmas -/

/-- **C6.** `session_scope` commits iff the wrapped body completed
normally; on a `SQLAlchemyError` it rolls back and re-raises the same
exception; in every case (success, database error, other exception) the
session is closed. -/
theorem C6_session_scope {α : Type} (body : Except Exn α) :
    ((session_scope body).2.committed = true ↔ ∃ a, body = .ok a) ∧
    (∀ msg, body = .error (.sqlAlchemy msg) →
      (session_scope body).2.rolledBack = true ∧
      (session_scope body).1 = .error (.sqlAlchemy msg)) ∧
    (session_scope body).2.closed = true := by
  refine ⟨?_, ?_, ?_⟩
  · cases body with
    | ok a => simp [session_scope]
    | error e => cases e <;> simp [session_scope, Exn.isSQLAlchemyError]
  · rintro msg rfl
    simp [session_scope, Exn.isSQLAlchemyError]
  · cases body with
    | ok a => rfl
    | error e => cases e <;> rfl

/-- Witness for C6: a concrete `SQLAlchemyError` is rolled back, re-raised
unchanged, and the session is closed. -/
theorem C6_witness :
    (session_scope (Except.error (Exn.sqlAlchemy "falha") : Except Exn Unit)).2.rolledBack = true ∧
    (session_scope (Except.error (Exn.sqlAlchemy "falha") : Except Exn Unit)).1 =
      Except.error (Exn.sqlAlchemy "falha") ∧
    (session_scope (Except.error (Exn.sqlAlchemy "falha") : Except Exn Unit)).2.closed = true :=
  ⟨((C6_session_scope _).2.1 "falha" rfl).1,
   ((C6_session_scope _).2.1 "falha" rfl).2,
   (C6_session_scope _).2.2⟩

lemma isEmpty_map_aux (df : DataFrame) (g : String × List Cell → String × List Cell)
    (hg : ∀ c, (g c).2.isEmpty = c.2.isEmpty) :
    DataFrame.isEmpty (df.map g) = DataFrame.isEmpty df := by
  induction df with
  | nil => rfl
  | cons c cs ih =>
    simp only [List.map_cons, DataFrame.isEmpty, List.all_cons] at ih ⊢
    rw [hg, ih]

lemma isEmpty_normalize (df : DataFrame) :
    DataFrame.isEmpty (normalize_columns df) = DataFrame.isEmpty df :=
  isEmpty_map_aux df _ (fun c => rfl)

lemma isEmpty_coerceColumn (df : DataFrame) (col : String) :
    DataFrame.isEmpty (coerceColumn df col) = DataFrame.isEmpty df := by
  unfold coerceColumn
  split
  · refine isEmpty_map_aux df _ (fun c => ?_)
    split
    · cases c.2 <;> rfl
    · rfl
  · rfl

lemma isEmpty_coerceValueColumns (df : DataFrame) :
    DataFrame.isEmpty (coerceValueColumns df) = DataFrame.isEmpty df := by
  show DataFrame.isEmpty (coerceColumn (coerceColumn df "PVENDA_CORTE") "PVENDA_FALTA") = _
  rw [isEmpty_coerceColumn, isEmpty_coerceColumn]

lemma logSection_empty (df : DataFrame) (h : DataFrame.isEmpty df = true) :
    logSection df = .ok () := by
  simp [logSection, h]
  rfl

/-- The cycle outcome on frames with no data at all: no e-mail, no
spreadsheet, no exception. -/
lemma verificar_empty_outcome (ds dm dac daf : DataFrame)
    (h1 : DataFrame.isEmpty ds = true) (h2 : DataFrame.isEmpty dm = true) :
    verificar_corte_falta ds dm dac daf = ⟨false, none, false⟩ := by
  have hd1 : DataFrame.isEmpty (coerceValueColumns (normalize_columns ds)) = true := by
    rw [isEmpty_coerceValueColumns, isEmpty_normalize]; exact h1
  have hd2 : DataFrame.isEmpty (coerceValueColumns (normalize_columns dm)) = true := by
    rw [isEmpty_coerceValueColumns, isEmpty_normalize]; exact h2
  simp [verificar_corte_falta, analiseLogs, logSection_empty _ hd1, logSection_empty _ hd2,
    hd1, hd2]
  rfl

/-- **C5.** When both synthetic query results are empty,
`verificar_corte_falta` treats it as "no movement": `enviar_email` is not
invoked, no spreadsheet is built, and the cycle completes with no exception
logged. -/
theorem C5_sem_movimento (ds dm dac daf : DataFrame)
    (h1 : DataFrame.isEmpty ds = true) (h2 : DataFrame.isEmpty dm = true) :
    verificar_corte_falta ds dm dac daf = ⟨false, none, false⟩ :=
  verificar_empty_outcome ds dm dac daf h1 h2

/-- Witness for C5: an empty-but-named yesterday frame and an empty month
frame produce a silent, successful, e-mail-free cycle. -/
theorem C5_witness :
    (DataFrame.isEmpty [("PVENDA_CORTE", ([] : List Cell))] = true) ∧
    verificar_corte_falta [("PVENDA_CORTE", [])] [] [("A", [Cell.nonnum])] []
      = ⟨false, none, false⟩ :=
  ⟨by decide, C5_sem_movimento _ _ _ _ (by decide) (by decide)⟩

lemma session_scope_error {α : Type} (e : Exn) :
    (session_scope (α := α) (.error e)).1 = .error e := by
  cases e <;> rfl

lemma executar_eq (fc : Except Exn String) (rq : String → Except Exn QueryResult) :
    executar_consulta_sql fc rq
      = match (session_scope (corpoConsulta fc rq)).1 with
        | .ok df => (df, false)
        | .error _ => ([], true) := rfl

lemma executar_fileError (e : Exn) (rq : String → Except Exn QueryResult) :
    executar_consulta_sql (.error e) rq = ([], true) := by
  rw [executar_eq]
  have hc : corpoConsulta (.error e) rq = .error e := rfl
  rw [hc, session_scope_error]

lemma executar_queryError (s : String) (e : Exn) :
    executar_consulta_sql (.ok s) (fun _ => .error e) = ([], true) := by
  rw [executar_eq]
  have hc : corpoConsulta (.ok s) (fun _ => .error e) = .error e := rfl
  rw [hc, session_scope_error]

/-- **C4 (counterexample).** A failed query does not abort the cycle: with
yesterday data present and the month-analytic query raising a
`SQLAlchemyError`, the error is logged by `executar_consulta_sql` — yet the
cycle proceeds and still sends the e-mail, refuting "the cycle is aborted
without sending an email". -/
theorem C4_counterexample :
    (cicloComConsultas (.ok resultadoSintetico) (.ok ⟨[], []⟩)
        (.error (.sqlAlchemy "ORA-00942")) (.ok ⟨[], []⟩)).emailAttempted = true ∧
    (executar_consulta_sql (.ok "analitico_corte_mes.sql")
        (fun _ => .error (.sqlAlchemy "ORA-00942"))).2 = true :=
  ⟨by decide, by decide⟩

/-- **C4 (amended).** A query exception is logged and swallowed:
`executar_consulta_sql` always returns a DataFrame (empty on failure) and
never propagates the exception.  The cycle is **not** aborted — it proceeds
with the empty frame; only when the failures leave both synthetic frames
empty does the cycle end without an e-mail (and without raising). -/
theorem C4_conforme (fc : Except Exn String) (rq : String → Except Exn QueryResult)
    (r3 r4 : Except Exn QueryResult) (e1 e2 : Exn) :
    ((executar_consulta_sql fc rq).2 = true → (executar_consulta_sql fc rq).1 = []) ∧
    (executar_consulta_sql (.error e1) rq = ([], true)) ∧
    ((cicloComConsultas (.error e1) (.error e2) r3 r4).emailAttempted = false ∧
     (cicloComConsultas (.error e1) (.error e2) r3 r4).excelFrames = none ∧
     (cicloComConsultas (.error e1) (.error e2) r3 r4).errorLogged = false) := by
  refine ⟨?_, executar_fileError e1 rq, ?_⟩
  · rw [executar_eq]
    cases (session_scope (corpoConsulta fc rq)).1 <;> simp
  · have hciclo : cicloComConsultas (.error e1) (.error e2) r3 r4
        = verificar_corte_falta [] []
            (executar_consulta_sql (.ok "analitico_corte_mes.sql") (fun _ => r3)).1
            (executar_consulta_sql (.ok "analitico_falta_mes.sql") (fun _ => r4)).1 := by
      unfold cicloComConsultas
      rw [executar_queryError, executar_queryError]
    rw [hciclo, verificar_empty_outcome [] [] _ _ rfl rfl]
    exact ⟨rfl, rfl, rfl⟩

/-- Witness for C4 (amended): at concrete inputs, a file-read failure gives
the empty frame with the error logged, and two failing synthetic queries
give a silent no-send cycle. -/
theorem C4_witness :
    executar_consulta_sql (.error (Exn.other "arquivo ausente"))
        (fun _ => .ok ⟨[], []⟩) = ([], true) ∧
    (cicloComConsultas (.error (Exn.sqlAlchemy "ORA-01017")) (.error (Exn.other "x"))
        (.ok ⟨[], []⟩) (.ok ⟨[], []⟩)).emailAttempted = false :=
  ⟨(C4_conforme (.error (Exn.other "arquivo ausente")) (fun _ => .ok ⟨[], []⟩)
      (.ok ⟨[], []⟩) (.ok ⟨[], []⟩) (Exn.other "arquivo ausente") (Exn.other "x")).2.1,
   (C4_conforme (.ok "s") (fun _ => .ok ⟨[], []⟩) (.ok ⟨[], []⟩) (.ok ⟨[], []⟩)
      (Exn.sqlAlchemy "ORA-01017") (Exn.other "x")).2.2.1⟩

/-! ## Value-column coercion lemmas (C7) -/

lemma map_coerce_id (df : DataFrame) (col : String) (h : col ∉ DataFrame.names df) :
    df.map (fun c => if c.1 = col then (c.1, c.2.map coerceCell) else c) = df := by
  induction df with
  | nil => rfl
  | cons c cs ih =>
    have hc : c.1 ≠ col := fun he => h (by simp [DataFrame.names, he])
    have hcs : col ∉ DataFrame.names cs := fun hm =>
      h (by simp [DataFrame.names] at hm ⊢; exact Or.inr hm)
    simp only [List.map_cons, if_neg hc, ih hcs]

lemma coerceColumn_eq_map (df : DataFrame) (col : String) :
    coerceColumn df col
      = df.map (fun c => if c.1 = col then (c.1, c.2.map coerceCell) else c) := by
  unfold coerceColumn
  split
  · rfl
  · rename_i h
    exact (map_coerce_id df col h).symm

lemma coerceValueColumns_eq_map (df : DataFrame) :
    coerceValueColumns df
      = df.map (fun c =>
          if c.1 = "PVENDA_CORTE" ∨ c.1 = "PVENDA_FALTA"
          then (c.1, c.2.map coerceCell) else c) := by
  show coerceColumn (coerceColumn df "PVENDA_CORTE") "PVENDA_FALTA" = _
  rw [coerceColumn_eq_map, coerceColumn_eq_map, List.map_map]
  refine List.map_congr_left (fun c _ => ?_)
  by_cases h1 : c.1 = "PVENDA_CORTE" <;> by_cases h2 : c.1 = "PVENDA_FALTA" <;>
    simp [Function.comp, h1, h2]

lemma col?_coerceValueColumns (df : DataFrame) (col : String)
    (hcol : col = "PVENDA_CORTE" ∨ col = "PVENDA_FALTA") :
    DataFrame.col? (coerceValueColumns df) col
      = (DataFrame.col? df col).map (List.map coerceCell) := by
  rw [coerceValueColumns_eq_map]
  unfold DataFrame.col?
  rw [List.find?_map]
  have hp : (fun c : String × List Cell => decide (c.1 = col)) ∘
      (fun c : String × List Cell =>
        if c.1 = "PVENDA_CORTE" ∨ c.1 = "PVENDA_FALTA"
        then (c.1, c.2.map coerceCell) else c)
      = fun c : String × List Cell => decide (c.1 = col) := by
    funext c
    by_cases h : c.1 = "PVENDA_CORTE" ∨ c.1 = "PVENDA_FALTA" <;> simp [Function.comp, h]
  rw [hp]
  cases hf : df.find? (fun c => decide (c.1 = col)) with
  | none => rfl
  | some c =>
    have hc : c.1 = col := by simpa using List.find?_some hf
    have hcond : c.1 = "PVENDA_CORTE" ∨ c.1 = "PVENDA_FALTA" := hc ▸ hcol
    simp [Option.map_map, Function.comp, if_pos hcond]

/-- **C7.** The coercion loop of `verificar_corte_falta` maps each of
`PVENDA_CORTE` / `PVENDA_FALTA`, when present, cell by cell through
`to_numeric(errors="coerce").fillna(0.0)`: every surviving cell is numeric,
nulls and non-numeric values become `0.0`, numbers are untouched; a frame
missing the column is left unchanged by that step. -/
theorem C7_coercao (df : DataFrame) (col : String)
    (hcol : col = "PVENDA_CORTE" ∨ col = "PVENDA_FALTA") :
    (DataFrame.col? (coerceValueColumns df) col
        = (DataFrame.col? df col).map (List.map coerceCell)) ∧
    (∀ cells, DataFrame.col? (coerceValueColumns df) col = some cells →
        ∀ c ∈ cells, ∃ q, c = Cell.num q) ∧
    (coerceCell Cell.null = Cell.num 0 ∧ coerceCell Cell.nonnum = Cell.num 0 ∧
      ∀ q, coerceCell (Cell.num q) = Cell.num q) ∧
    (col ∉ DataFrame.names df → coerceColumn df col = df) := by
  refine ⟨col?_coerceValueColumns df col hcol, ?_, ⟨rfl, rfl, fun q => rfl⟩, ?_⟩
  · intro cells hc c hcmem
    rw [col?_coerceValueColumns df col hcol] at hc
    cases ho : DataFrame.col? df col with
    | none => rw [ho] at hc; cases hc
    | some orig =>
      rw [ho] at hc
      injection hc with hc
      subst hc
      obtain ⟨c0, -, rfl⟩ := List.mem_map.mp hcmem
      cases c0 <;> exact ⟨_, rfl⟩
  · intro h
    unfold coerceColumn
    rw [if_neg h]

/-- Witness for C7: a concrete frame whose `PVENDA_CORTE` column holds a
null, a non-numeric value and a number. -/
theorem C7_witness :
    DataFrame.col? (coerceValueColumns
        [("PVENDA_CORTE", [Cell.null, Cell.nonnum, Cell.num 3]), ("OUTRA", [Cell.null])])
      "PVENDA_CORTE" = some [Cell.num 0, Cell.num 0, Cell.num 3] := by
  rw [(C7_coercao
    [("PVENDA_CORTE", [Cell.null, Cell.nonnum, Cell.num 3]), ("OUTRA", [Cell.null])]
    "PVENDA_CORTE" (Or.inl rfl)).1]
  decide

/-- **C8.** A missing-recipients configuration never propagates out of the
send step: `enviar_email` with `EMAIL_DESTINATARIOS` unset catches the
`AttributeError`, logs it and makes no SES call; with recipients set it
returns normally whether the SES call succeeds or raises; and
`SMTPClient.send_html` with an empty `to` logs an error and returns before
any SMTP traffic. -/
theorem C8_falha_config (ses : List String → Except Exn Unit) (s : String) (e : Exn)
    (cc bcc : List String) (smtp : List String → Except Exn Unit) :
    enviar_email none ses = ⟨false, true⟩ ∧
    (ses (s.splitOn ";") = .error e → enviar_email (some s) ses = ⟨true, true⟩) ∧
    (ses (s.splitOn ";") = .ok () → enviar_email (some s) ses = ⟨true, false⟩) ∧
    SMTPClient.send_html [] cc bcc smtp = ⟨false, [], true⟩ := by
  refine ⟨rfl, ?_, ?_, rfl⟩ <;> intro h <;> simp [enviar_email, h]

/-- Witness for C8: a concrete failing SES call is swallowed and logged, and
a concrete empty-recipients `send_html` returns without attempting a send. -/
theorem C8_witness :
    enviar_email (some "ti@brf1.com;diretoria@brf1.com")
        (fun _ => .error (Exn.other "SES fora do ar")) = ⟨true, true⟩ ∧
    SMTPClient.send_html [] ["cc@brf1.com"] []
        (fun _ => .ok ()) = ⟨false, [], true⟩ :=
  ⟨(C8_falha_config (fun _ => .error (Exn.other "SES fora do ar"))
      "ti@brf1.com;diretoria@brf1.com" (Exn.other "SES fora do ar") [] []
      (fun _ => .ok ())).2.1 rfl,
   (C8_falha_config (fun _ => .ok ()) "x" (Exn.other "x") ["cc@brf1.com"] []
      (fun _ => .ok ())).2.2.2⟩

/-! ## Sheet-name sanitisation (C9) and currency formatters (C10) -/

lemma digitChar_mem (d : Nat) (hd : d < 10) : Nat.digitChar d ∈ "0123456789".data := by
  interval_cases d <;> decide

lemma digitosRev_mem (fuel n : Nat) (c : Char) (hc : c ∈ digitosRev fuel n) :
    c ∈ "0123456789".data := by
  induction fuel generalizing n with
  | zero => cases hc
  | succ fuel ih =>
    unfold digitosRev at hc
    split at hc
    · cases hc
    · rcases List.mem_cons.mp hc with rfl | hc
      · exact digitChar_mem _ (Nat.mod_lt _ (by norm_num))
      · exact ih _ hc

lemma strOfNat_mem (n : Nat) (c : Char) (hc : c ∈ (strOfNat n).data) :
    c ∈ "0123456789".data := by
  unfold strOfNat at hc
  split at hc
  · simp only [show ("0" : String).data = ['0'] from rfl, List.mem_singleton] at hc
    subst hc
    decide
  · exact digitosRev_mem n n c (List.mem_reverse.mp hc)

lemma digitosRev_length_le (fuel : Nat) : ∀ n k, n < 10 ^ k →
    (digitosRev fuel n).length ≤ k := by
  induction fuel with
  | zero => intro n k _; simp [digitosRev]
  | succ fuel ih =>
    intro n k hn
    unfold digitosRev
    split
    · simp
    · rename_i hn0
      cases k with
      | zero => omega
      | succ k =>
        have hdiv : n / 10 < 10 ^ k := by
          have : (10:Nat) ^ (k+1) = 10 ^ k * 10 := by ring
          exact Nat.div_lt_of_lt_mul (by omega)
        simpa using Nat.succ_le_succ (ih (n / 10) k hdiv)

lemma strOfNat_length_le (n k : Nat) (hn : n < 10 ^ k) (hk : 1 ≤ k) :
    (strOfNat n).length ≤ k := by
  unfold strOfNat
  split
  · simpa [String.length]
  · show (digitosRev n n).reverse.length ≤ k
    rw [List.length_reverse]
    exact digitosRev_length_le n n k hn

lemma digits_not_invalid : ∀ c ∈ "0123456789".data, c ∉ invalidSheetChars := by decide

lemma pyStripList_subset (l : List Char) : pyStripList l ⊆ l := by
  unfold pyStripList
  intro c hc
  rw [List.mem_reverse] at hc
  have h1 := (List.dropWhile_sublist _ (l := (l.dropWhile (· ∈ pyWhitespace)).reverse)).subset hc
  rw [List.mem_reverse] at h1
  exact (List.dropWhile_sublist _ (l := l)).subset h1

lemma pyRStrip_subset (s : String) (c : Char) (hc : c ∈ (pyRStrip s).data) :
    c ∈ s.data := by
  unfold pyRStrip at hc
  simp only [String.data] at hc
  rw [List.mem_reverse] at hc
  have h1 := (List.dropWhile_sublist _ (l := s.data.reverse)).subset hc
  exact List.mem_reverse.mp h1

lemma pyRStrip_length_le (s : String) : (pyRStrip s).length ≤ s.length := by
  show ((s.data.reverse.dropWhile _).reverse).length ≤ s.data.length
  rw [List.length_reverse]
  calc (s.data.reverse.dropWhile _).length ≤ s.data.reverse.length :=
        (List.dropWhile_sublist _).length_le
    _ = s.data.length := List.length_reverse _

lemma base_length_le (name : String) : (safe_sheet_name_base name).length ≤ 31 := by
  unfold safe_sheet_name_base
  show (List.take 31 _).length ≤ 31
  simpa using List.length_take_le 31 _

lemma base_chars (name : String) :
    ∀ c ∈ (safe_sheet_name_base name).data, c ∉ invalidSheetChars := by
  intro c hc
  unfold safe_sheet_name_base at hc
  have hc' := List.mem_of_mem_take (show c ∈ List.take 31 _ from hc)
  split at hc'
  · exact (show ∀ c ∈ "Planilha".data, c ∉ invalidSheetChars by decide) c hc'
  · have hmem := pyStripList_subset _ hc'
    obtain ⟨x, -, rfl⟩ := List.mem_map.mp hmem
    by_cases hx : x ∈ invalidSheetChars
    · simpa [hx] using (by decide : ('-' : Char) ∉ invalidSheetChars)
    · simpa [hx] using hx

lemma sheetCandidate_length_le (base : String) (i : Nat) (hi : i < 1000) :
    (sheetCandidate base i).length ≤ 31 := by
  unfold sheetCandidate
  have e2 : (" (" : String).length = 2 := rfl
  have e1 : ((")") : String).length = 1 := rfl
  have h3 : (strOfNat i).length ≤ 3 :=
    strOfNat_length_le i 3 (by norm_num; omega) (by norm_num)
  have htake : ((⟨base.data.take (31 - (" (" ++ strOfNat i ++ ")").length)⟩ : String)).length
      ≤ 31 - (" (" ++ strOfNat i ++ ")").length := by
    show (base.data.take _).length ≤ _
    simpa using List.length_take_le _ _
  have hr := pyRStrip_length_le ⟨base.data.take (31 - (" (" ++ strOfNat i ++ ")").length)⟩
  simp only [String.length_append, e2, e1] at *
  omega

lemma sheetCandidate_chars (base : String)
    (hbase : ∀ c ∈ base.data, c ∉ invalidSheetChars) (i : Nat) :
    ∀ c ∈ (sheetCandidate base i).data, c ∉ invalidSheetChars := by
  intro c hc
  unfold sheetCandidate at hc
  rw [String.data_append] at hc
  rcases List.mem_append.mp hc with hc | hc
  · exact hbase c (List.mem_of_mem_take (pyRStrip_subset _ c hc))
  · rw [String.data_append, String.data_append] at hc
    rcases List.mem_append.mp hc with h | h
    · rcases List.mem_append.mp h with h | h
      · exact (by decide : ∀ c ∈ " (".data, c ∉ invalidSheetChars) c h
      · exact digits_not_invalid c (strOfNat_mem i c h)
    · exact (by decide : ∀ c ∈ ")".data, c ∉ invalidSheetChars) c h

lemma findFree_none_of_all_mem (u : List String) (base : String) (l : List Nat)
    (h : ∀ i ∈ l, sheetCandidate base i ∈ u) :
    findFreeCandidate u base l = none := by
  induction l with
  | nil => rfl
  | cons i is ih =>
    unfold findFreeCandidate
    rw [if_pos (h i (List.mem_cons_self i is))]
    exact ih (fun j hj => h j (List.mem_cons_of_mem _ hj))

lemma findFree_some_spec (u : List String) (base : String) (l : List Nat) (r : String)
    (h : findFreeCandidate u base l = some r) :
    r ∉ u ∧ ∃ i ∈ l, r = sheetCandidate base i := by
  induction l with
  | nil => cases h
  | cons i is ih =>
    unfold findFreeCandidate at h
    split at h
    · obtain ⟨h1, j, hj, he⟩ := ih h
      exact ⟨h1, j, List.mem_cons_of_mem _ hj, he⟩
    · injection h with h
      subst h
      rename_i hni
      exact ⟨hni, i, List.mem_cons_self i is, rfl⟩

lemma fallback_chars (name : String) (n : Nat) :
    ∀ c ∈ (((⟨(safe_sheet_name_base name).data.take 27⟩ : String)
        ++ " (" ++ strOfNat n ++ ")")).data,
      c ∉ invalidSheetChars := by
  intro c hc
  rw [String.data_append, String.data_append, String.data_append] at hc
  rcases List.mem_append.mp hc with hc | hc
  · rcases List.mem_append.mp hc with hc | hc
    · rcases List.mem_append.mp hc with hc | hc
      · exact base_chars name c (List.mem_of_mem_take hc)
      · exact (by decide : ∀ c ∈ " (".data, c ∉ invalidSheetChars) c hc
    · exact digits_not_invalid c (strOfNat_mem n c hc)
  · exact (by decide : ∀ c ∈ ")".data, c ∉ invalidSheetChars) c hc

set_option maxRecDepth 4096 in
/-- **C9 (counterexample).** The claim fails in the exhausted-fallback
branch: with a 31-character base name and a `used` set holding the base and
all 198 loop candidates, `safe_sheet_name` falls back to
`base[:27] + f" ({len(used)+1})"`, a 33-character name — longer than 31;
and when that very fallback name is itself already in `used`, it is
returned anyway — the fallback is never checked against `used`. -/
theorem C9_counterexample :
    ¬ ((safe_sheet_name nomeLongo (some usadosCheios)).1.length ≤ 31) ∧
    (safe_sheet_name nomeLongo (some usadosComFallback)).1 ∈ usadosComFallback := by
  have hbase : safe_sheet_name_base nomeLongo = nomeLongo := by decide
  constructor
  · have hmem : nomeLongo ∈ usadosCheios := List.mem_cons_self _ _
    have hff : findFreeCandidate usadosCheios nomeLongo (List.range' 2 198) = none :=
      findFree_none_of_all_mem _ _ _
        (fun i hi => List.mem_cons_of_mem _ (List.mem_map_of_mem _ hi))
    have hlen : usadosCheios.length = 199 := by
      show (nomeLongo :: _).length = 199
      rw [List.length_cons, List.length_map, List.length_range']
    simp only [safe_sheet_name, hbase, if_pos hmem, hff, hlen]
    decide
  · have hmem : nomeLongo ∈ usadosComFallback :=
      List.mem_cons_of_mem _ (List.mem_cons_self _ _)
    have hff : findFreeCandidate usadosComFallback nomeLongo (List.range' 2 198) = none :=
      findFree_none_of_all_mem _ _ _
        (fun i hi => List.mem_cons_of_mem _
          (List.mem_cons_of_mem _ (List.mem_map_of_mem _ hi)))
    simp only [safe_sheet_name, hbase, if_pos hmem, hff]
    decide

/-- **C9 (amended).** In every branch — the fallback included — the
returned name avoids the forbidden characters and is inserted into `used`
before returning; except in the exhausted fallback (base taken and all 198
suffix candidates taken) the result is also at most 31 characters and not
in `used` at call time; in the fallback branch the result is exactly
`base[:27] + f" ({len(used)+1})"`, emitted without any check against
`used`; with `used` absent the sanitised base is returned unchanged. -/
theorem C9_saneamento (name : String) (u : List String) :
    (∀ c ∈ (safe_sheet_name name (some u)).1.data, c ∉ invalidSheetChars) ∧
    (safe_sheet_name name (some u)).2 = some ((safe_sheet_name name (some u)).1 :: u) ∧
    safe_sheet_name name none = (safe_sheet_name_base name, none) ∧
    ((safe_sheet_name_base name ∉ u ∨
        findFreeCandidate u (safe_sheet_name_base name) (List.range' 2 198) ≠ none) →
      (safe_sheet_name name (some u)).1.length ≤ 31 ∧
      (safe_sheet_name name (some u)).1 ∉ u) ∧
    (safe_sheet_name_base name ∈ u →
      findFreeCandidate u (safe_sheet_name_base name) (List.range' 2 198) = none →
      (safe_sheet_name name (some u)).1
        = (⟨(safe_sheet_name_base name).data.take 27⟩ : String)
            ++ " (" ++ strOfNat (u.length + 1) ++ ")") := by
  by_cases hb : safe_sheet_name_base name ∈ u
  · cases hfc : findFreeCandidate u (safe_sheet_name_base name) (List.range' 2 198) with
    | some r =>
      obtain ⟨hru, i, hi, hre⟩ := findFree_some_spec _ _ _ _ hfc
      subst hre
      have hi200 : i < 200 := by
        have := List.mem_range'_1.mp hi
        omega
      have hres : safe_sheet_name name (some u)
          = (sheetCandidate (safe_sheet_name_base name) i,
             some (sheetCandidate (safe_sheet_name_base name) i :: u)) := by
        simp only [safe_sheet_name, if_pos hb, hfc]
      rw [hres]
      refine ⟨sheetCandidate_chars _ (base_chars name) i, rfl, rfl, ?_, ?_⟩
      · intro _
        exact ⟨sheetCandidate_length_le _ i (by omega), hru⟩
      · intro _ hnone
        exact Option.noConfusion hnone
    | none =>
      have hres : safe_sheet_name name (some u)
          = ((⟨(safe_sheet_name_base name).data.take 27⟩ : String)
               ++ " (" ++ strOfNat (u.length + 1) ++ ")",
             some (((⟨(safe_sheet_name_base name).data.take 27⟩ : String)
               ++ " (" ++ strOfNat (u.length + 1) ++ ")") :: u)) := by
        simp only [safe_sheet_name, if_pos hb, hfc]
      rw [hres]
      refine ⟨fallback_chars name (u.length + 1), rfl, rfl, ?_, fun _ _ => rfl⟩
      intro h
      rcases h with h | h
      · exact absurd hb h
      · exact absurd rfl h
  · have hres : safe_sheet_name name (some u)
        = (safe_sheet_name_base name, some (safe_sheet_name_base name :: u)) := by
      simp only [safe_sheet_name, if_neg hb]
    rw [hres]
    refine ⟨base_chars name, rfl, rfl, ?_, ?_⟩
    · intro _
      exact ⟨base_length_le name, hb⟩
    · intro hmem _
      exact absurd hmem hb

/-- Witness for C9 (amended): a concrete name with invalid characters and a
small `used` set, where the search hypothesis holds and the returned name
is short and fresh. -/
theorem C9_witness :
    (safe_sheet_name "Analítico: Corte/Falta [2024]" (some ["Planilha"])).1.length ≤ 31 ∧
    (safe_sheet_name "Analítico: Corte/Falta [2024]" (some ["Planilha"])).1 ∉ ["Planilha"] :=
  ⟨((C9_saneamento "Analítico: Corte/Falta [2024]" ["Planilha"]).2.2.2.1
      (Or.inl (by decide))).1,
   ((C9_saneamento "Analítico: Corte/Falta [2024]" ["Planilha"]).2.2.2.1
      (Or.inl (by decide))).2⟩

/-- **C10 (counterexample).** The two currency formatters are not
extensionally equal: on the numeric string `"10"`, `formatar_como_moeda`
falls back to `"R$ 0,00"` (the format spec raises on `str`), while
`moeda_br` first applies `float(v)` and renders `"R$ 10,00"`. -/
theorem C10_counterexample :
    formatar_como_moeda (PyVal.str "10") = "R$ 0,00" ∧
    moeda_br (PyVal.str "10") = "R$ 10,00" ∧
    formatar_como_moeda (PyVal.str "10") ≠ moeda_br (PyVal.str "10") :=
  ⟨rfl, by decide, by decide⟩

/-- **C10 (amended).** The formatters agree on every non-string input
(ints, floats, `None`); they differ on strings: `formatar_como_moeda`
always falls back to `"R$ 0,00"` on a `str`, whereas `moeda_br` renders
those strings `float()` can parse. -/
theorem C10_quase_equivalentes (v : PyVal) (hv : ∀ s, v ≠ PyVal.str s) :
    formatar_como_moeda v = moeda_br v ∧
    (∀ s, formatar_como_moeda (PyVal.str s) = "R$ 0,00") := by
  refine ⟨?_, fun s => rfl⟩
  cases v with
  | int n => rfl
  | float q => rfl
  | str s => exact absurd rfl (hv s)
  | none_ => rfl

/-- Witness for C10 (amended): agreement at a concrete integer input. -/
theorem C10_witness :
    formatar_como_moeda (PyVal.int 1234) = moeda_br (PyVal.int 1234) :=
  (C10_quase_equivalentes (PyVal.int 1234) (fun s h => nomatch h)).1

end Sentinela
